import Mathlib

/-!
Verification development for the "Battle for Canggu" game server.

The game-state engine of `src/server.js` (the richest deployed variant) is
embedded shallowly below: the mutable `db` object becomes an explicit `DB`
value threaded through each operation, every HTTP handler of the engine
(`/api/claim`, `/api/lock`, `/api/stealAttempt`, `/api/drawCard`,
`/api/completeChallenge`, `/api/vetoChallenge`, and the admin deck upload)
becomes a function `DB → ... → Res × DB` that mirrors the handler's checks
and field writes in source order, and the current wall clock `Date.now()` is
passed in as an explicit `tnow : Nat` (milliseconds).  JavaScript objects
used as string-keyed maps (`db.teams`, `db.bars`) are embedded as
association lists in insertion order, since object key insertion order is
what the code relies on.  An uncaught `throw` from `ensureTeam` surfaces to
the HTTP layer as an error response; it is embedded as an `err` result that
leaves the state exactly as mutated so far, which is what the JavaScript
does (the in-memory `db` keeps any mutation made before the throw).

The sibling variant `src/unnamed/part_000` (a combined claim/lock/steal
handler that does enforce the team-photo requirement) is embedded separately
in namespace `P0`.
-/

namespace BFC

open List

/-- A card of the master deck, as produced by `/api/admin/uploadDeck`
(`{ id, type, text }`). -/
structure Card where
  id : String
  type : String
  text : String
deriving DecidableEq, Repr

/-- A team's current draw (`team.activeChallenge` in `server.js`):
`{ cardId, text, type, startedAt, status }`. -/
structure Challenge where
  cardId : String
  text : String
  type : String
  startedAt : Nat
  status : String
deriving DecidableEq, Repr

/-- Photo-proof record stored on a bar (`bar.proof`); each field is the
stored path string, `""` when absent. -/
structure Proof where
  teamPhoto : String
  drinksPhoto : String
deriving DecidableEq, Repr

/-- A team record (`db.teams[code]` in `server.js`).  `penaltyUntil` is a
millisecond timestamp, `0` meaning "no penalty" (the code initialises it to
`0` and tests it for truthiness). -/
structure Team where
  name : String
  color : String
  score : Nat
  penaltyUntil : Nat
  deck : List Card
  drawn : List String
  deckSeed : String
  activeChallenge : Option Challenge
deriving DecidableEq, Repr

/-- A bar record (`db.bars[placeId]` in `server.js`).  Bars are created
lazily by `/api/claim` with `state = "claimed"`, so `claimedBy` is always a
team code; `lockedBy` is `null` until a lock. -/
structure Bar where
  name : String
  lat : Int
  lng : Int
  state : String
  claimedBy : String
  lockedBy : Option String
  proof : Proof
  attemptsFailed : Nat
deriving DecidableEq, Repr

/-- The `db.game` object.  `start`/`endT` embed the nullable millisecond
bounds (`db.game.end` — `end` is a Lean keyword, hence `endT`); the admin
route stores `null` for any falsy input, so `none` covers both `null` and
the unreachable `0`.  `masterDeck` is `[]` until a deck upload, matching the
code's `!db.game.masterDeck?.length` check which treats missing and empty
alike. -/
structure Game where
  accessCode : String
  start : Option Nat
  endT : Option Nat
  masterDeck : List Card
deriving DecidableEq, Repr

/-- The whole mutable state (`db` in `server.js`), with the JS objects
`db.teams` and `db.bars` as association lists in insertion order. -/
structure DB where
  game : Game
  teams : List (String × Team)
  bars : List (String × Bar)
deriving DecidableEq, Repr

/-- Result of a handler: `ok` for a 200 JSON response, `err msg` for an
error response (a 4xx/5xx JSON error or an uncaught `throw`). -/
inductive Res where
  | ok : Res
  | err (msg : String) : Res
deriving DecidableEq, Repr

/-- JS object read `m[k]` on a string-keyed object embedded as an
association list. -/
def alookup {α : Type} : List (String × α) → String → Option α
  | [], _ => none
  | (k, v) :: rest, key => if k = key then some v else alookup rest key

/-- JS object write `m[k] = v`: overwrite in place when the key exists,
append a new key otherwise (JS insertion order). -/
def assocSet {α : Type} : List (String × α) → String → α → List (String × α)
  | [], key, v => [(key, v)]
  | (k, w) :: rest, key, v =>
      if k = key then (key, v) :: rest else (k, w) :: assocSet rest key v

/-- `withinGameTime()` from `server.js`: permissive when either bound is
unset, otherwise `start ≤ now ≤ end`. -/
def withinGameTime (g : Game) (tnow : Nat) : Bool :=
  match g.start, g.endT with
  | some s, some e => decide (s ≤ tnow) && decide (tnow ≤ e)
  | _, _ => true

/-- `isPenalized(teamCode)` from `server.js` applied to a resolved team:
`t.penaltyUntil && now() < t.penaltyUntil`. -/
def isPenalizedT (t : Team) (tnow : Nat) : Bool :=
  t.penaltyUntil != 0 && decide (tnow < t.penaltyUntil)

/-- The `penaltyUntil` update done by `addPenalty(teamCode, minutes)`:
`Math.max(now, t.penaltyUntil || 0) + minutes*60*1000`.  (With
`penaltyUntil` embedded as a `Nat` whose `0` is JS falsy, `max` absorbs the
`|| 0`.) -/
def addPenaltyUntil (t : Team) (tnow : Nat) (minutes : Nat) : Nat :=
  max tnow t.penaltyUntil + minutes * 60 * 1000

/-- Initial generator state of `shuffle`: the XOR of the character codes of
the seed string (`s ^= seed.charCodeAt(i)` starting from `0`). -/
def seedInit (seed : String) : Nat :=
  seed.data.foldl (fun s c => s ^^^ c.toNat) 0

/-- One step of the linear-congruential generator used by `shuffle`:
`s = (s * 1664525 + 1013904223) >>> 0`. -/
def lcg (s : Nat) : Nat :=
  (s * 1664525 + 1013904223) % 4294967296

/-- In-place array swap `[a[i], a[j]] = [a[j], a[i]]` on a list; out-of-range
indices leave the list unchanged (unreachable in `shuffle`, where both
indices are below the length). -/
def swapAt {α : Type} (l : List α) (i j : Nat) : List α :=
  match l[i]?, l[j]? with
  | some x, some y => (l.set i y).set j x
  | _, _ => l

/-- The descending Fisher–Yates loop of `shuffle`: the argument `i` is the
current loop index (`for (let i = a.length - 1; i > 0; i--)`), so `fyAux a s
i` runs the body for indices `i, i-1, ..., 1`. -/
def fyAux {α : Type} (a : List α) (s : Nat) : Nat → List α
  | 0 => a
  | i + 1 =>
      let s2 := lcg s
      let j := s2 % (i + 2)
      fyAux (swapAt a (i + 1) j) s2 i

/-- `shuffle(arr, seed)` from `server.js`: a deterministic seeded
Fisher–Yates permutation driven by the LCG above. -/
def shuffle {α : Type} (arr : List α) (seed : String) : List α :=
  fyAux arr (seedInit seed) (arr.length - 1)

theorem cons_set_perm {α : Type} (a : α) :
    ∀ (t : List α) (j : Nat) (h : j < t.length),
      (t.get ⟨j, h⟩ :: t.set j a).Perm (a :: t)
  | b :: s, 0, _ => List.Perm.swap a b s
  | b :: s, j + 1, h => by
      have ih := cons_set_perm a s j (by simpa using Nat.lt_of_succ_lt_succ h)
      calc ((b :: s).get ⟨j + 1, h⟩ :: (b :: s).set (j + 1) a)
          = s.get ⟨j, by simpa using Nat.lt_of_succ_lt_succ h⟩ :: b :: s.set j a := by
            simp [List.set]
        _ ~ b :: s.get ⟨j, by simpa using Nat.lt_of_succ_lt_succ h⟩ :: s.set j a :=
            List.Perm.swap _ _ _
        _ ~ b :: a :: s := ih.cons b
        _ ~ a :: b :: s := List.Perm.swap a b s

theorem set_set_perm {α : Type} :
    ∀ (l : List α) (i j : Nat) (hi : i < l.length) (hj : j < l.length),
      ((l.set i (l.get ⟨j, hj⟩)).set j (l.get ⟨i, hi⟩)).Perm l
  | a :: t, 0, 0, _, _ => by simp
  | a :: t, 0, j + 1, hi, hj => by
      have hj2 : j < t.length := by simpa using Nat.lt_of_succ_lt_succ hj
      have step := cons_set_perm a t j hj2
      calc (((a :: t).set 0 ((a :: t).get ⟨j + 1, hj⟩)).set (j + 1) ((a :: t).get ⟨0, hi⟩))
          = t.get ⟨j, hj2⟩ :: t.set j a := by simp [List.set]
        _ ~ a :: t := step
  | a :: t, i + 1, 0, hi, hj => by
      have hi2 : i < t.length := by simpa using Nat.lt_of_succ_lt_succ hi
      have step := cons_set_perm a t i hi2
      calc (((a :: t).set (i + 1) ((a :: t).get ⟨0, hj⟩)).set 0 ((a :: t).get ⟨i + 1, hi⟩))
          = t.get ⟨i, hi2⟩ :: t.set i a := by simp [List.set]
        _ ~ a :: t := step
  | a :: t, i + 1, j + 1, hi, hj => by
      have hi2 : i < t.length := by simpa using Nat.lt_of_succ_lt_succ hi
      have hj2 : j < t.length := by simpa using Nat.lt_of_succ_lt_succ hj
      have ih := set_set_perm t i j hi2 hj2
      simpa [List.set] using ih.cons a

theorem swapAt_perm {α : Type} (l : List α) (i j : Nat) : (swapAt l i j).Perm l := by
  unfold swapAt
  cases hx : l[i]? with
  | none => exact List.Perm.refl l
  | some x =>
    cases hy : l[j]? with
    | none => exact List.Perm.refl l
    | some y =>
      have hi : i < l.length := by
        by_contra h
        simp [List.getElem?_eq_none (Nat.le_of_not_lt h)] at hx
      have hj : j < l.length := by
        by_contra h
        simp [List.getElem?_eq_none (Nat.le_of_not_lt h)] at hy
      have hx2 : x = l.get ⟨i, hi⟩ := by
        have := List.getElem?_eq_getElem hi
        rw [hx] at this
        simpa using Option.some_injective _ this
      have hy2 : y = l.get ⟨j, hj⟩ := by
        have := List.getElem?_eq_getElem hj
        rw [hy] at this
        simpa using Option.some_injective _ this
      subst hx2; subst hy2
      exact set_set_perm l i j hi hj

theorem fyAux_perm {α : Type} (s : Nat) :
    ∀ (i : Nat) (a : List α), (fyAux a s i).Perm a
  | 0, a => List.Perm.refl a
  | i + 1, a => by
      have h1 := fyAux_perm (lcg s) i (swapAt a (i + 1) (lcg s % (i + 2)))
      have h2 := swapAt_perm a (i + 1) (lcg s % (i + 2))
      exact (by simpa [fyAux] using h1.trans h2)

theorem shuffle_perm {α : Type} (arr : List α) (seed : String) :
    (shuffle arr seed).Perm arr :=
  fyAux_perm (seedInit seed) (arr.length - 1) arr

/-- The bar record `/api/claim` creates when the place id was never seen
before (new object literal in the `!bar` branch). -/
def claimBarNew (name : String) (lat lng : Int)
    (teamCode teamPhoto drinksPhoto : String) : Bar :=
  { name := name, lat := lat, lng := lng, state := "claimed",
    claimedBy := teamCode, lockedBy := none,
    proof := Proof.mk (if teamPhoto = "" then "" else "/uploads/" ++ teamPhoto)
      (if drinksPhoto = "" then "" else "/uploads/" ++ drinksPhoto),
    attemptsFailed := 0 }

/-- The in-place overwrite `/api/claim` performs on an existing unlocked
bar: force `claimed` by the caller, drop the lock holder, keep old proof
photos when no new ones were uploaded.  `attemptsFailed` is left as is. -/
def claimBarOver (bar : Bar) (teamCode teamPhoto drinksPhoto : String) : Bar :=
  { bar with
    state := "claimed", claimedBy := teamCode, lockedBy := none,
    proof := Proof.mk
      (if teamPhoto = "" then bar.proof.teamPhoto else "/uploads/" ++ teamPhoto)
      (if drinksPhoto = "" then bar.proof.drinksPhoto
        else "/uploads/" ++ drinksPhoto) }

/-- `POST /api/claim` from `server.js`.  `teamPhoto`/`drinksPhoto` are the
uploaded file names (multer stores the file and hands back a path whose base
name the handler prepends with `/uploads/`); `""` means no file was
attached.  The handler checks, in source order: game window, required body
fields, penalty (whose `ensureTeam` throws `Invalid team.` on an unknown
code), and a locked bar; then it creates or overwrites the bar record and
increments the caller's stored `score` by 1.  It never checks for the
presence of a photo, despite its own comment "(still requires proof)". -/
def claim (st : DB) (tnow : Nat) (teamCode placeId name : String)
    (lat lng : Int) (teamPhoto drinksPhoto : String) : Res × DB :=
  if withinGameTime st.game tnow = false then (Res.err "Game is not active.", st)
  else if teamCode = "" ∨ placeId = "" ∨ name = "" then (Res.err "Missing fields.", st)
  else
    match alookup st.teams teamCode with
    | none => (Res.err "Invalid team.", st)
    | some team =>
      if isPenalizedT team tnow then (Res.err "Team under penalty.", st)
      else
        match alookup st.bars placeId with
        | some bar =>
          if bar.state = "locked" then (Res.err "Bar is locked.", st)
          else
            (Res.ok, { st with
              bars := assocSet st.bars placeId (claimBarOver bar teamCode teamPhoto drinksPhoto),
              teams := assocSet st.teams teamCode ({ team with score := team.score + 1 }) })
        | none =>
          (Res.ok, { st with
            bars := assocSet st.bars placeId (claimBarNew name lat lng teamCode teamPhoto drinksPhoto),
            teams := assocSet st.teams teamCode ({ team with score := team.score + 1 }) })

/-- `POST /api/lock` from `server.js`: gated on the game window, requires
the bar to exist and to be `claimed` by the caller, then sets
`state = "locked"`, `lockedBy = teamCode`.  There is no penalty check. -/
def lock (st : DB) (tnow : Nat) (teamCode placeId : String) : Res × DB :=
  if withinGameTime st.game tnow = false then (Res.err "Game is not active.", st)
  else
    match alookup st.bars placeId with
    | none => (Res.err "Unknown bar.", st)
    | some bar =>
      if bar.state = "claimed" ∧ bar.claimedBy = teamCode then
        (Res.ok, { st with bars := assocSet st.bars placeId (
          { bar with state := "locked", lockedBy := some teamCode }) })
      else (Res.err "You must claim the bar first.", st)

/-- The bar mutation of a failed steal (`/api/stealAttempt`, `else` branch):
increment `attemptsFailed` and, when it reaches 2, lock the bar for the
incumbent owner. -/
def stealFailBar (bar : Bar) : Bar :=
  let bar2 : Bar := { bar with attemptsFailed := bar.attemptsFailed + 1 }
  if 2 ≤ bar2.attemptsFailed then
    { bar2 with state := "locked", lockedBy := some bar2.claimedBy }
  else bar2

/-- `POST /api/stealAttempt` from `server.js`.  On success the caller's
stored `score` gains 1, ownership transfers and `attemptsFailed` resets; on
failure `attemptsFailed` is incremented on the bar first (locking it for the
incumbent at 2), and only then `addPenalty` resolves the team — so an
unknown team code makes the handler throw after the bar was already
mutated.  There is no penalty check on the caller. -/
def stealAttempt (st : DB) (tnow : Nat) (teamCode placeId : String)
    (success : Bool) : Res × DB :=
  if withinGameTime st.game tnow = false then (Res.err "Game is not active.", st)
  else
    match alookup st.bars placeId with
    | none => (Res.err "Unknown bar.", st)
    | some bar =>
      if bar.state ≠ "claimed" then (Res.err "Bar not stealable.", st)
      else if bar.claimedBy = teamCode then (Res.err "You already own this bar.", st)
      else if success then
        match alookup st.teams teamCode with
        | none => (Res.err "Invalid team.", st)
        | some t =>
          (Res.ok, { st with
            teams := assocSet st.teams teamCode ({ t with score := t.score + 1 }),
            bars := assocSet st.bars placeId (
              { bar with claimedBy := teamCode, lockedBy := none, attemptsFailed := 0 }) })
      else
        let st2 : DB := { st with bars := assocSet st.bars placeId (stealFailBar bar) }
        match alookup st2.teams teamCode with
        | none => (Res.err "Invalid team.", st2)
        | some t =>
          (Res.ok, { st2 with teams := assocSet st2.teams teamCode (
            { t with penaltyUntil := addPenaltyUntil t tnow 5 }) })

/-- Does this team have an active challenge
(`team.activeChallenge && team.activeChallenge.status === "active"`)? -/
def hasActiveChallenge (t : Team) : Bool :=
  match t.activeChallenge with
  | some act => act.status = "active"
  | none => false

/-- `POST /api/drawCard` from `server.js`: gated on window, uploaded master
deck, team validity, penalty and an already-active challenge; on a team's
first draw it snapshots `shuffle(masterDeck, deckSeed)` into `team.deck`
(minting the seed from the team code and the clock when unset), then picks
the first not-yet-drawn card and makes it the active challenge. -/
def drawCard (st : DB) (tnow : Nat) (teamCode : String) : Res × DB :=
  if withinGameTime st.game tnow = false then (Res.err "Game is not active.", st)
  else if st.game.masterDeck = [] then (Res.err "Deck not uploaded yet.", st)
  else
    match alookup st.teams teamCode with
    | none => (Res.err "Invalid team.", st)
    | some team =>
      if isPenalizedT team tnow then (Res.err "Team under penalty.", st)
      else if hasActiveChallenge team then
        (Res.err "You already have an active challenge.", st)
      else
        let team1 : Team :=
          if team.deck = [] then
            let seed := if team.deckSeed = "" then teamCode ++ ":" ++ toString tnow
              else team.deckSeed
            { team with deckSeed := seed,
                        deck := shuffle st.game.masterDeck seed, drawn := [] }
          else team
        let st1 : DB := { st with teams := assocSet st.teams teamCode team1 }
        match team1.deck.find? (fun c => !(team1.drawn.contains c.id)) with
        | none => (Res.err "No more cards.", st1)
        | some next =>
          (Res.ok, { st1 with teams := assocSet st1.teams teamCode (
            { team1 with activeChallenge := some {
              cardId := next.id, text := next.text, type := next.type,
              startedAt := tnow, status := "active" } }) })

/-- `POST /api/completeChallenge` from `server.js`: needs only a valid team
with an active challenge (no window, no penalty check); moves the card id
into `drawn` and clears the challenge. -/
def completeChallenge (st : DB) (teamCode : String) : Res × DB :=
  match alookup st.teams teamCode with
  | none => (Res.err "Invalid team.", st)
  | some team =>
    match team.activeChallenge with
    | none => (Res.err "No active challenge.", st)
    | some act =>
      if act.status ≠ "active" then (Res.err "No active challenge.", st)
      else (Res.ok, { st with teams := assocSet st.teams teamCode (
        { team with drawn := team.drawn ++ [act.cardId], activeChallenge := none }) })

/-- `Math.ceil(12 - elapsed)` of the veto handler, computed over the elapsed
milliseconds: the whole minutes still to wait before the 12-minute mark. -/
def vetoRemainingMinutes (elapsedMs : Nat) : Nat :=
  (720000 - elapsedMs + 59999) / 60000

/-- `POST /api/vetoChallenge` from `server.js`: needs a valid team with an
active challenge (no window, no penalty check); before 12 minutes have
elapsed since `startedAt` it rejects with the remaining wait and writes
nothing, otherwise it consumes the card and applies `addPenalty(teamCode, 5)`.
Time is embedded as `Nat`, so `tnow - act.startedAt` matches the JS float
arithmetic whenever `startedAt ≤ tnow` (the clock never runs backwards). -/
def vetoChallenge (st : DB) (tnow : Nat) (teamCode : String) : Res × DB :=
  match alookup st.teams teamCode with
  | none => (Res.err "Invalid team.", st)
  | some team =>
    match team.activeChallenge with
    | none => (Res.err "No active challenge.", st)
    | some act =>
      if act.status ≠ "active" then (Res.err "No active challenge.", st)
      else
        let elapsedMs := tnow - act.startedAt
        if elapsedMs < 720000 then
          (Res.err ("Must attempt at least 12 minutes. Wait "
            ++ toString (vetoRemainingMinutes elapsedMs) ++ " more minute(s)."), st)
        else
          (Res.ok, { st with teams := assocSet st.teams teamCode (
            { team with drawn := team.drawn ++ [act.cardId],
                        activeChallenge := none,
                        penaltyUntil := addPenaltyUntil team tnow 5 }) })

/-- `POST /api/admin/uploadDeck` from `server.js`, given the card list the
handler builds from the spreadsheet rows (the XLSX parsing itself is
out-of-core plumbing): its only write to engine state is
`db.game.masterDeck = deck`. -/
def uploadDeck (st : DB) (deck : List Card) : DB :=
  { st with game := { st.game with masterDeck := deck } }

/-- A freshly created team as `/api/admin/createTeam` builds it. -/
def mkTeam (name color : String) : Team :=
  { name := name, color := color, score := 0, penaltyUntil := 0,
    deck := [], drawn := [], deckSeed := "", activeChallenge := none }

/-- The number of bars whose owner is the given team, read off the broadcast
state — the spec's `ownedCount[t]` (`|{ bar : bar.owner == team }|`), stated
from the spec's words for comparison with the stored `score` counter.  In
`server.js` a bar's owner is its `claimedBy` field. -/
def specOwnedCount (st : DB) (teamCode : String) : Nat :=
  (st.bars.filter (fun p => p.2.claimedBy = teamCode)).length

namespace P0

/-- Team record of the `src/unnamed/part_000` variant. -/
structure Team where
  name : String
  color : String
  score : Nat
deriving DecidableEq, Repr

/-- Bar record of the `src/unnamed/part_000` variant. -/
structure Bar where
  name : String
  lat : Int
  lng : Int
  owner : Option String
  locked : Bool
deriving DecidableEq, Repr

/-- State of the `src/unnamed/part_000` variant (`db.teams`, `db.bars`). -/
structure DB where
  teams : List (String × Team)
  bars : List (String × Bar)
deriving DecidableEq, Repr

/-- `POST /api/claim` of `src/unnamed/part_000`: the combined
claim/lock/steal handler.  `hasFile` is `req.file` presence; the handler
rejects `action = "claim"` without a team photo before touching any state,
resolves the team (its `try`/`catch` turns the `ensureTeam` throw into a
400), lazily creates the bar, and then dispatches on `action`. -/
def claimHandler (st : DB) (teamCode placeId barName : String) (lat lng : Int)
    (hasFile : Bool) (action : String) : Res × DB :=
  if teamCode = "" then (Res.err "Missing teamCode", st)
  else if hasFile = false ∧ action = "claim" then (Res.err "Team photo required", st)
  else
    match alookup st.teams teamCode with
    | none => (Res.err "Invalid team.", st)
    | some team =>
      let pair :=
        match alookup st.bars placeId with
        | some b => (b, st)
        | none =>
          let b : Bar := { name := barName, lat := lat, lng := lng,
                           owner := none, locked := false }
          (b, { st with bars := assocSet st.bars placeId b })
      let bar := pair.1
      let st1 := pair.2
      if action = "lock" then
        if bar.owner ≠ some teamCode then (Res.err "Only the owner can lock", st1)
        else if bar.locked then (Res.err "Already locked", st1)
        else (Res.ok, { st1 with bars := assocSet st1.bars placeId ({ bar with locked := true }) })
      else
        if bar.locked then (Res.err "Bar is locked", st1)
        else
          match bar.owner with
          | none =>
            (Res.ok, { st1 with
              bars := assocSet st1.bars placeId ({ bar with owner := some teamCode }),
              teams := assocSet st1.teams teamCode ({ team with score := team.score + 1 }) })
          | some o =>
            if o ≠ teamCode then
              (Res.ok, { st1 with
                bars := assocSet st1.bars placeId ({ bar with owner := some teamCode }) })
            else (Res.ok, st1)

end P0

/-- One gameplay request to the engine, carrying the request body and the
clock value at which the handler runs. -/
inductive Op where
  | claimOp (teamCode placeId name : String) (lat lng : Int)
      (teamPhoto drinksPhoto : String) (tnow : Nat)
  | lockOp (teamCode placeId : String) (tnow : Nat)
  | stealOp (teamCode placeId : String) (success : Bool) (tnow : Nat)
  | drawOp (teamCode : String) (tnow : Nat)
  | completeOp (teamCode : String)
  | vetoOp (teamCode : String) (tnow : Nat)
deriving DecidableEq, Repr

/-- Dispatch one request to its handler. -/
def applyOp (st : DB) : Op → Res × DB
  | .claimOp tc pid nm lat lng tp dp tnow => claim st tnow tc pid nm lat lng tp dp
  | .lockOp tc pid tnow => lock st tnow tc pid
  | .stealOp tc pid s tnow => stealAttempt st tnow tc pid s
  | .drawOp tc tnow => drawCard st tnow tc
  | .completeOp tc => completeChallenge st tc
  | .vetoOp tc tnow => vetoChallenge st tnow tc

/-- Run a sequence of requests, threading the state. -/
def runOps (st : DB) : List Op → DB
  | [] => st
  | op :: rest => runOps (applyOp st op).2 rest

/-- The broadcast score of a team: the stored `score` field of its record
in the state `broadcastState()` emits (`none` when the team code is
unknown). -/
def scoreOf (st : DB) (tc : String) : Option Nat :=
  (alookup st.teams tc).map Team.score

/-- 1 when this request is a successful claim by the given team or a
successful steal by the given team, 0 otherwise. -/
def scoreDelta (tc : String) (st : DB) (op : Op) : Nat :=
  match op with
  | .claimOp tc2 _ _ _ _ _ _ _ =>
      if tc2 = tc ∧ (applyOp st op).1 = Res.ok then 1 else 0
  | .stealOp tc2 _ s _ =>
      if tc2 = tc ∧ s = true ∧ (applyOp st op).1 = Res.ok then 1 else 0
  | _ => 0

/-- The number of successful claims plus successful steals by the given team
along a request sequence. -/
def succScore (tc : String) (st : DB) : List Op → Nat
  | [] => 0
  | op :: rest => scoreDelta tc st op + succScore tc (applyOp st op).2 rest

theorem alookup_assocSet_self {α : Type} (m : List (String × α)) (k : String) (v : α) :
    alookup (assocSet m k v) k = some v := by
  induction m with
  | nil => simp [assocSet, alookup]
  | cons p rest ih =>
    by_cases h : p.1 = k
    · simp [assocSet, h, alookup]
    · simp [assocSet, h, alookup, ih]

theorem alookup_assocSet_ne {α : Type} (m : List (String × α)) (k k2 : String) (v : α)
    (h : k2 ≠ k) : alookup (assocSet m k v) k2 = alookup m k2 := by
  have hks : ¬(k = k2) := fun h2 => h h2.symm
  induction m with
  | nil => simp [assocSet, alookup, hks]
  | cons p rest ih =>
    obtain ⟨k1, v1⟩ := p
    by_cases hp : k1 = k
    · subst hp
      simp [assocSet, alookup, hks]
    · simp [assocSet, hp, alookup, ih]

theorem assocSet_self {α : Type} (m : List (String × α)) (k : String) (v : α)
    (h : alookup m k = some v) : assocSet m k v = m := by
  induction m with
  | nil => simp [alookup] at h
  | cons p rest ih =>
    by_cases hp : p.1 = k
    · obtain ⟨k1, v1⟩ := p
      simp_all [alookup, assocSet]
    · simp [alookup, hp] at h
      simp [assocSet, hp, ih h]

theorem assocSet_absent {α : Type} (m : List (String × α)) (k : String) (v : α)
    (h : alookup m k = none) : assocSet m k v = m ++ [(k, v)] := by
  induction m with
  | nil => simp [assocSet]
  | cons p rest ih =>
    by_cases hp : p.1 = k
    · simp [alookup, hp] at h
    · simp [alookup, hp] at h
      simp [assocSet, hp, ih h]

theorem ownedLen_assocSet_preserve (bars : List (String × Bar))
    (pid : String) (bar bar2 : Bar) (tc : String)
    (h : alookup bars pid = some bar) (hsame : bar2.claimedBy = bar.claimedBy) :
    ((assocSet bars pid bar2).filter (fun p => p.2.claimedBy = tc)).length
      = (bars.filter (fun p => p.2.claimedBy = tc)).length := by
  induction bars with
  | nil => simp [alookup] at h
  | cons p rest ih =>
    obtain ⟨k1, b1⟩ := p
    by_cases hp : k1 = pid
    · subst hp
      simp [alookup] at h
      subst h
      by_cases hc : b1.claimedBy = tc
      · simp [assocSet, List.filter_cons, hc, hsame]
      · simp [assocSet, List.filter_cons, hc, hsame]
    · simp [alookup, hp] at h
      by_cases hc : b1.claimedBy = tc
      · simp [assocSet, hp, List.filter_cons, hc, ih h]
      · simp [assocSet, hp, List.filter_cons, hc, ih h]

/-- The game object of initial `db.json` with no window set (setup mode). -/
def g0 : Game := { accessCode := "", start := none, endT := none, masterDeck := [] }

/-- A small roster of created teams, as `/api/admin/createTeam` leaves them. -/
def st0 : DB :=
  { game := g0,
    teams := [("NAP123", mkTeam "Raj's Nap Champs" "#ef4444"),
              ("PUMP456", mkTeam "Raj's Pumpers & Dumpers" "#f59e0b"),
              ("ROCK789", mkTeam "Raj on the Rocks" "#22c55e")],
    bars := [] }

/-- `st0` after `NAP123` claims the fresh bar `b1`: the bar is `claimed` by
`NAP123` with `attemptsFailed = 0` and `NAP123`'s score is 1. -/
def stClaimed : DB := (claim st0 100 "NAP123" "b1" "Bar One" 0 0 "" "").2

/-- C9: the per-team deck shuffle is a deterministic pure function — for
every master deck and every seed string two runs agree exactly (in the
embedding `shuffle` is a pure function of its arguments, which is precisely
why: the source reads no state other than the seed), and the result is a
permutation of the master deck, so a fixed `deckSeed` always reproduces the
same draw order. -/
theorem C9_shuffle_deterministic_and_permutes (deck : List Card) (seed : String) :
    shuffle deck seed = shuffle deck seed ∧ (shuffle deck seed).Perm deck :=
  ⟨rfl, shuffle_perm deck seed⟩

/-- The `src/unnamed/part_000` roster (its `TEAMS_CONFIG` seeds teams with
score 0). -/
def p0st : P0.DB :=
  { teams := [("NAP123", ⟨"Raj's Nap Champs", "#ef4444", 0⟩),
              ("PUMP456", ⟨"Raj's Pumpers & Dumpers", "#f59e0b", 0⟩)],
    bars := [] }

/-- C2: claim without proof.  The `server.js` handler accepts a claim with
no photo attached: at the failing input (valid team `NAP123`, fresh bar
`b1`, open window, no penalty, both photo fields absent) it answers OK and
creates the bar as `claimed` — contradicting the claim (and the handler's
own comment "(still requires proof)").  The sibling variant
`src/unnamed/part_000` behaves as the claim says: no file plus
`action = "claim"` is rejected with `Team photo required` and the state is
untouched. -/
theorem C2_claim_without_proof_divergence :
    (claim st0 100 "NAP123" "b1" "Bar One" 0 0 "" "").1 = Res.ok
    ∧ (alookup (claim st0 100 "NAP123" "b1" "Bar One" 0 0 "" "").2.bars "b1").map
        (fun b => (b.state, b.claimedBy)) = some ("claimed", "NAP123")
    ∧ (P0.claimHandler p0st "NAP123" "b1" "Bar One" 0 0 false "claim").1
        = Res.err "Team photo required"
    ∧ (P0.claimHandler p0st "NAP123" "b1" "Bar One" 0 0 false "claim").2 = p0st := by
  decide

/-- C1 counterexample: after `NAP123` claims the same bar twice, its
broadcast score is 2 while it owns 1 bar (and no `scoreAdjustment` exists in
the state at all), so `score = ownedCount + adjustment` fails: the score is
a stored counter, not derived from ownership on read. -/
theorem C1_counterexample_score_not_derived :
    (alookup (claim stClaimed 200 "NAP123" "b1" "Bar One" 0 0 "" "").2.teams
        "NAP123").map Team.score = some 2
    ∧ specOwnedCount (claim stClaimed 200 "NAP123" "b1" "Bar One" 0 0 "" "").2
        "NAP123" = 1
    ∧ (2 : Nat) ≠ 1 + 0 := by
  decide

/-- C3 counterexample: `PUMP456` claims the bar already `claimed` by
`NAP123`; the handler answers OK and transfers ownership instead of failing
with `AlreadyOwnedByOther`. -/
theorem C3_counterexample_claim_steals :
    (claim stClaimed 200 "PUMP456" "b1" "Bar One" 0 0 "" "").1 = Res.ok
    ∧ (alookup (claim stClaimed 200 "PUMP456" "b1" "Bar One" 0 0 "" "").2.bars
        "b1").map Bar.claimedBy = some "PUMP456" := by
  decide

/-- `stClaimed` after one failed steal by `PUMP456`: bar `b1` still claimed
by `NAP123`, with `attemptsFailed = 1`. -/
def stOneFail : DB := (stealAttempt stClaimed 200 "PUMP456" "b1" false).2

/-- C4 counterexample: with `attemptsFailed = 1` on `NAP123`'s bar, a
successful claim by `ROCK789` changes ownership but leaves
`attemptsFailed` at 1 — it does not reset to 0 on this ownership change. -/
theorem C4_counterexample_claim_keeps_counter :
    (alookup stOneFail.bars "b1").map (fun b => (b.claimedBy, b.attemptsFailed))
      = some ("NAP123", 1)
    ∧ (claim stOneFail 300 "ROCK789" "b1" "Bar One" 0 0 "" "").1 = Res.ok
    ∧ (alookup (claim stOneFail 300 "ROCK789" "b1" "Bar One" 0 0 "" "").2.bars
        "b1").map (fun b => (b.claimedBy, b.attemptsFailed))
      = some ("ROCK789", 1) := by
  decide

/-- `stClaimed` with `PUMP456` put under a penalty running until t=10000000. -/
def stPen : DB :=
  { stClaimed with teams := assocSet stClaimed.teams "PUMP456" (
      { mkTeam "Raj's Pumpers & Dumpers" "#f59e0b" with penaltyUntil := 10000000 }) }

/-- C5 counterexample: `PUMP456` is under an active penalty at t=500, yet
its steal attempt on `NAP123`'s bar is accepted and transfers ownership —
`/api/stealAttempt` never consults the penalty clock. -/
theorem C5_counterexample_steal_ignores_penalty :
    (alookup stPen.teams "PUMP456").map (fun t => isPenalizedT t 500) = some true
    ∧ (stealAttempt stPen 500 "PUMP456" "b1" true).1 = Res.ok
    ∧ (alookup (stealAttempt stPen 500 "PUMP456" "b1" true).2.bars "b1").map
        Bar.claimedBy = some "PUMP456" := by
  decide

/-- C6 counterexample: a failed steal attempt with the unknown team code
`NOPE` errors (`ensureTeam` throws inside `addPenalty`) yet has already
incremented the bar's `failedStealAttempts` — a partial write on an
erroring call. -/
theorem C6_counterexample_partial_write :
    (stealAttempt stClaimed 200 "NOPE" "b1" false).1 = Res.err "Invalid team."
    ∧ (alookup (stealAttempt stClaimed 200 "NOPE" "b1" false).2.bars "b1").map
        Bar.attemptsFailed = some 1
    ∧ (stealAttempt stClaimed 200 "NOPE" "b1" false).2 ≠ stClaimed := by
  decide

/-- `stClaimed` with the game window set to [1000, 2000]. -/
def stWin : DB :=
  { stClaimed with game := { g0 with start := some 1000, endT := some 2000 } }

/-- C7 counterexample: at t=3000 the window [1000, 2000] is closed and
`/api/lock` rejects the rightful owner with `Game is not active.`, though
the same lock succeeds while the window is open — `lock` is gated on the
game window, contrary to the claim. -/
theorem C7_counterexample_lock_is_window_gated :
    lock stWin 3000 "NAP123" "b1" = (Res.err "Game is not active.", stWin)
    ∧ (lock stClaimed 150 "NAP123" "b1").1 = Res.ok := by
  decide

theorem vetoMsg_length (r : Nat) :
    55 ≤ ("Must attempt at least 12 minutes. Wait " ++ toString r
      ++ " more minute(s).").length := by
  have h1 : ("Must attempt at least 12 minutes. Wait ").length = 39 := by decide
  have h2 : (" more minute(s).").length = 16 := by decide
  simp only [String.length_append, h1, h2]
  omega

theorem vetoMsg_ne (r : Nat) (s : String) (hs : s.length < 55) :
    Res.err ("Must attempt at least 12 minutes. Wait " ++ toString r
      ++ " more minute(s).") ≠ Res.err s := by
  intro h
  have h2 : ("Must attempt at least 12 minutes. Wait " ++ toString r
      ++ " more minute(s).") = s := by injection h
  have h3 := vetoMsg_length r
  rw [h2] at h3
  omega

theorem vetoChallenge_res_cases (st : DB) (tnow : Nat) (tc : String) :
    (vetoChallenge st tnow tc).1 = Res.ok
    ∨ (vetoChallenge st tnow tc).1 = Res.err "Invalid team."
    ∨ (vetoChallenge st tnow tc).1 = Res.err "No active challenge."
    ∨ ∃ r : Nat, (vetoChallenge st tnow tc).1
        = Res.err ("Must attempt at least 12 minutes. Wait " ++ toString r
            ++ " more minute(s).") := by
  unfold vetoChallenge
  cases h1 : alookup st.teams tc with
  | none => simp
  | some team =>
    cases h2 : team.activeChallenge with
    | none => simp [h2]
    | some act =>
      by_cases hs : act.status = "active"
      · by_cases he : tnow - act.startedAt < 720000
        · refine Or.inr (Or.inr (Or.inr
            ⟨vetoRemainingMinutes (tnow - act.startedAt), ?_⟩))
          simp [h2, hs, he]
        · simp [h2, hs, he]
      · simp [h2, hs]

theorem completeChallenge_res_cases (st : DB) (tc : String) :
    (completeChallenge st tc).1 = Res.ok
    ∨ (completeChallenge st tc).1 = Res.err "Invalid team."
    ∨ (completeChallenge st tc).1 = Res.err "No active challenge." := by
  unfold completeChallenge
  cases h1 : alookup st.teams tc with
  | none => simp
  | some team =>
    cases h2 : team.activeChallenge with
    | none => simp [h2]
    | some act =>
      by_cases hs : act.status = "active" <;> simp [h2, hs]

/-- C7 (amended): `withinGameTime()` is true exactly when either bound of
the game window is unset or `start ≤ now ≤ end`; the window gates `claim`,
`stealAttempt`, `drawCard` AND `lock` (all four reject with
`Game is not active.` outside the window, writing nothing), while
`completeChallenge` and `vetoChallenge` are not gated on the game window.
The original claim is amended only in listing `lock` among the gated
operations. -/
theorem C7_window_semantics_and_gating :
    (∀ (g : Game) (tnow : Nat),
      withinGameTime g tnow = true ↔
        (g.start = none ∨ g.endT = none ∨
          ∃ s e, g.start = some s ∧ g.endT = some e ∧ s ≤ tnow ∧ tnow ≤ e))
    ∧ (∀ (st : DB) (tnow : Nat) (tc pid nm : String) (lat lng : Int)
        (tp dp : String) (s : Bool),
        withinGameTime st.game tnow = false →
          claim st tnow tc pid nm lat lng tp dp = (Res.err "Game is not active.", st)
          ∧ stealAttempt st tnow tc pid s = (Res.err "Game is not active.", st)
          ∧ drawCard st tnow tc = (Res.err "Game is not active.", st)
          ∧ lock st tnow tc pid = (Res.err "Game is not active.", st))
    ∧ (∀ (st : DB) (tnow : Nat) (tc : String),
        (completeChallenge st tc).1 ≠ Res.err "Game is not active."
        ∧ (vetoChallenge st tnow tc).1 ≠ Res.err "Game is not active.") := by
  refine ⟨?_, ?_, ?_⟩
  · intro g tnow
    cases hs : g.start with
    | none => simp [withinGameTime, hs]
    | some s =>
      cases he : g.endT with
      | none => simp [withinGameTime, hs, he]
      | some e => simp [withinGameTime, hs, he]
  · intro st tnow tc pid nm lat lng tp dp s h
    refine ⟨?_, ?_, ?_, ?_⟩ <;> simp [claim, stealAttempt, drawCard, lock, h]
  · intro st tnow tc
    constructor
    · rcases completeChallenge_res_cases st tc with h | h | h <;> simp [h]
    · rcases vetoChallenge_res_cases st tnow tc with h | h | h | ⟨r, h⟩
      · simp [h]
      · simp [h]
      · simp [h]
      · rw [h]
        exact vetoMsg_ne r "Game is not active." (by decide)

theorem stealAttempt_err_never_penalty (st : DB) (tnow : Nat) (tc pid : String)
    (s : Bool) : (stealAttempt st tnow tc pid s).1 ≠ Res.err "Team under penalty." := by
  unfold stealAttempt
  by_cases hw : withinGameTime st.game tnow = false
  · simp [hw]
  · cases hb : alookup st.bars pid with
    | none => simp [hw, hb]
    | some bar =>
      by_cases h1 : bar.state = "claimed"
      · by_cases h2 : bar.claimedBy = tc
        · simp [hw, hb, h1, h2]
        · cases s with
          | true =>
            cases ht : alookup st.teams tc with
            | none => simp [hw, hb, h1, h2, ht]
            | some t => simp [hw, hb, h1, h2, ht]
          | false =>
            cases ht : alookup st.teams tc with
            | none => simp [hw, hb, h1, h2, ht]
            | some t => simp [hw, hb, h1, h2, ht]
      · simp [hw, hb, h1]

theorem lock_err_never_penalty (st : DB) (tnow : Nat) (tc pid : String) :
    (lock st tnow tc pid).1 ≠ Res.err "Team under penalty." := by
  unfold lock
  repeat' split
  all_goals simp_all

/-- C7 witness: concrete uses of the three parts — the open setup window is
within time, and at t=3000 the closed window [1000, 2000] makes `lock`
reject. -/
theorem C7_witness :
    withinGameTime g0 0 = true
    ∧ lock stWin 3000 "NAP123" "b1" = (Res.err "Game is not active.", stWin)
    ∧ (completeChallenge stWin "NAP123").1 ≠ Res.err "Game is not active." :=
  ⟨(C7_window_semantics_and_gating.1 g0 0).mpr (Or.inl rfl),
   ((C7_window_semantics_and_gating.2.1 stWin 3000 "NAP123" "b1" "x" 0 0 "" ""
      false (by decide)).2.2.2),
   (C7_window_semantics_and_gating.2.2 stWin 0 "NAP123").1⟩

/-- C5 (amended): while a team is under penalty (`penaltyUntil` set and
`now < penaltyUntil`), `claim` and `drawCard` fail with `PenaltyActive`
(`Team under penalty.`) leaving the state unchanged — but `stealAttempt` is
NOT penalty-gated, and neither are `lock`, `completeChallenge` and
`vetoChallenge` (none of the four can even produce that error).  The
original claim is amended only in moving `stealAttempt` from the
penalty-gated group to the unaffected group. -/
theorem C5_penalty_gates_claim_and_draw_only (st : DB) (tnow : Nat)
    (tc pid nm : String) (lat lng : Int) (tp dp : String) (s : Bool) (t : Team)
    (hteam : alookup st.teams tc = some t)
    (hpen : isPenalizedT t tnow = true) :
    (withinGameTime st.game tnow = true → tc ≠ "" → pid ≠ "" → nm ≠ "" →
      claim st tnow tc pid nm lat lng tp dp = (Res.err "Team under penalty.", st))
    ∧ (withinGameTime st.game tnow = true → st.game.masterDeck ≠ [] →
      drawCard st tnow tc = (Res.err "Team under penalty.", st))
    ∧ (stealAttempt st tnow tc pid s).1 ≠ Res.err "Team under penalty."
    ∧ (lock st tnow tc pid).1 ≠ Res.err "Team under penalty."
    ∧ (completeChallenge st tc).1 ≠ Res.err "Team under penalty."
    ∧ (vetoChallenge st tnow tc).1 ≠ Res.err "Team under penalty." := by
  refine ⟨?_, ?_, stealAttempt_err_never_penalty st tnow tc pid s,
          lock_err_never_penalty st tnow tc pid, ?_, ?_⟩
  · intro hw htc hpid hnm
    simp [claim, hw, htc, hpid, hnm, hteam, hpen]
  · intro hw hmd
    simp [drawCard, hw, hmd, hteam, hpen]
  · rcases completeChallenge_res_cases st tc with h | h | h <;> simp [h]
  · rcases vetoChallenge_res_cases st tnow tc with h | h | h | ⟨r, h⟩
    · simp [h]
    · simp [h]
    · simp [h]
    · rw [h]
      exact vetoMsg_ne r "Team under penalty." (by decide)

/-- C5 witness: at t=500 team `PUMP456` of `stPen` is penalized until
t=10000000; its claim on a fresh bar is rejected with the penalty error
while its steal attempt cannot produce that error. -/
theorem C5_witness :
    claim stPen 500 "PUMP456" "b2" "Bar Two" 0 0 "" ""
      = (Res.err "Team under penalty.", stPen)
    ∧ (stealAttempt stPen 500 "PUMP456" "b1" true).1
      ≠ Res.err "Team under penalty." := by
  have h := C5_penalty_gates_claim_and_draw_only stPen 500 "PUMP456" "b1" "Bar Two"
    0 0 "" "" true
    ({ mkTeam "Raj's Pumpers & Dumpers" "#f59e0b" with penaltyUntil := 10000000 })
    (by decide) (by decide)
  have h2 := C5_penalty_gates_claim_and_draw_only stPen 500 "PUMP456" "b2" "Bar Two"
    0 0 "" "" true
    ({ mkTeam "Raj's Pumpers & Dumpers" "#f59e0b" with penaltyUntil := 10000000 })
    (by decide) (by decide)
  exact ⟨h2.1 (by decide) (by decide) (by decide) (by decide), h.2.2.1⟩

/-- C8 (confirmed): for a team with an active challenge, vetoing strictly
before 12 minutes (720000 ms) have elapsed since `startedAt` always fails
with the `VetoTooEarly` message reporting the remaining whole minutes
(`Math.ceil(12 - elapsed)`, always at least 1) and changes no state; at or
after the 12-minute mark it always succeeds, moves the card id into the
drawn set, clears the active challenge and applies exactly the 5-minute
penalty `penaltyUntil = max(now, penaltyUntil) + 5*60*1000`.  `startedAt ≤
tnow` holds for every reachable state since `startedAt` is a past reading
of the same clock. -/
theorem C8_veto_twelve_minute_rule (st : DB) (tnow : Nat) (tc : String)
    (t : Team) (act : Challenge)
    (hteam : alookup st.teams tc = some t)
    (hact : t.activeChallenge = some act)
    (hstatus : act.status = "active")
    (hmono : act.startedAt ≤ tnow) :
    (tnow < act.startedAt + 720000 →
      vetoChallenge st tnow tc
        = (Res.err ("Must attempt at least 12 minutes. Wait "
            ++ toString (vetoRemainingMinutes (tnow - act.startedAt))
            ++ " more minute(s)."), st)
      ∧ 1 ≤ vetoRemainingMinutes (tnow - act.startedAt))
    ∧ (act.startedAt + 720000 ≤ tnow →
      (vetoChallenge st tnow tc).1 = Res.ok
      ∧ (vetoChallenge st tnow tc).2
        = { st with teams := assocSet st.teams tc (
            { t with drawn := t.drawn ++ [act.cardId],
                     activeChallenge := none,
                     penaltyUntil := max tnow t.penaltyUntil + 5 * 60 * 1000 }) }) := by
  constructor
  · intro hlt
    have he : tnow - act.startedAt < 720000 := by omega
    constructor
    · simp [vetoChallenge, hteam, hact, hstatus, he]
    · unfold vetoRemainingMinutes
      rw [Nat.le_div_iff_mul_le (by omega : 0 < 60000)]
      omega
  · intro hge
    have he : ¬(tnow - act.startedAt < 720000) := by omega
    constructor
    · simp [vetoChallenge, hteam, hact, hstatus, he]
    · simp [vetoChallenge, hteam, hact, hstatus, he, addPenaltyUntil]

/-- The team record used by the C8 witness state: `NAP123` with an active
challenge started at t=1000. -/
def tVeto : Team :=
  { mkTeam "Raj's Nap Champs" "#ef4444" with
      activeChallenge := some ⟨"card_1", "Do X", "challenge", 1000, "active"⟩ }

/-- The C8 witness state. -/
def stVeto : DB := { game := g0, teams := [("NAP123", tVeto)], bars := [] }

/-- C8 witness: at t=1500 (499 ms in) the veto is rejected with 12 minutes
to wait and no state change; at t=721000 (12 min 1 s in) it succeeds. -/
theorem C8_witness :
    (vetoChallenge stVeto 1500 "NAP123"
      = (Res.err ("Must attempt at least 12 minutes. Wait "
          ++ toString (vetoRemainingMinutes (1500 - 1000))
          ++ " more minute(s)."), stVeto)
      ∧ 1 ≤ vetoRemainingMinutes (1500 - 1000))
    ∧ (vetoChallenge stVeto 721000 "NAP123").1 = Res.ok := by
  have hE := C8_veto_twelve_minute_rule stVeto 1500 "NAP123" tVeto
    ⟨"card_1", "Do X", "challenge", 1000, "active"⟩ (by decide) rfl rfl (by decide)
  have hL := C8_veto_twelve_minute_rule stVeto 721000 "NAP123" tVeto
    ⟨"card_1", "Do X", "challenge", 1000, "active"⟩ (by decide) rfl rfl (by decide)
  exact ⟨hE.1 (by decide), (hL.2 (by decide)).1⟩

/-- C3 (amended): the claim operation's ownership contract, for a valid
request (open window, fields present, valid unpenalized team): claiming an
absent (never-claimed) bar answers OK, creates it `claimed` by the team and
raises the team's owned-bar count by exactly 1; claiming a bar already
`claimed` by the same team answers OK and leaves its machine state
(`state`, `claimedBy`, `attemptsFailed`) and the owned count unchanged
(idempotent); but claiming a bar `claimed` by a DIFFERENT team does not
fail with `AlreadyOwnedByOther` — it answers OK and transfers ownership to
the caller.  Only this last clause is amended: the source comments call this
path out deliberately ("If unclaimed or claimed by others ... treat as
claim"). -/
theorem C3_claim_ownership_contract (st : DB) (tnow : Nat) (tc pid nm : String)
    (lat lng : Int) (tp dp : String) (t : Team)
    (hw : withinGameTime st.game tnow = true)
    (htc : tc ≠ "") (hpid : pid ≠ "") (hnm : nm ≠ "")
    (hteam : alookup st.teams tc = some t)
    (hpen : isPenalizedT t tnow = false) :
    (alookup st.bars pid = none →
      (claim st tnow tc pid nm lat lng tp dp).1 = Res.ok
      ∧ (alookup (claim st tnow tc pid nm lat lng tp dp).2.bars pid).map
          (fun b => (b.state, b.claimedBy)) = some ("claimed", tc)
      ∧ specOwnedCount (claim st tnow tc pid nm lat lng tp dp).2 tc
          = specOwnedCount st tc + 1)
    ∧ (∀ bar, alookup st.bars pid = some bar → bar.state = "claimed" →
        bar.claimedBy = tc →
      (claim st tnow tc pid nm lat lng tp dp).1 = Res.ok
      ∧ (alookup (claim st tnow tc pid nm lat lng tp dp).2.bars pid).map
          (fun b => (b.state, b.claimedBy, b.attemptsFailed))
          = some ("claimed", tc, bar.attemptsFailed)
      ∧ specOwnedCount (claim st tnow tc pid nm lat lng tp dp).2 tc
          = specOwnedCount st tc)
    ∧ (∀ bar, alookup st.bars pid = some bar → bar.state = "claimed" →
        bar.claimedBy ≠ tc →
      (claim st tnow tc pid nm lat lng tp dp).1 = Res.ok
      ∧ (alookup (claim st tnow tc pid nm lat lng tp dp).2.bars pid).map
          (fun b => (b.state, b.claimedBy)) = some ("claimed", tc)) := by
  refine ⟨?_, ?_, ?_⟩
  · intro hbar
    refine ⟨?_, ?_, ?_⟩
    · simp [claim, hw, htc, hpid, hnm, hteam, hpen, hbar]
    · simp [claim, hw, htc, hpid, hnm, hteam, hpen, hbar, alookup_assocSet_self,
        claimBarNew]
    · have hcl2 : (claim st tnow tc pid nm lat lng tp dp).2.bars
          = assocSet st.bars pid (claimBarNew nm lat lng tc tp dp) := by
        simp [claim, hw, htc, hpid, hnm, hteam, hpen, hbar]
      unfold specOwnedCount
      rw [hcl2, assocSet_absent _ _ _ hbar, List.filter_append]
      simp [List.filter, claimBarNew]
  · intro bar hbar hstate hown
    have hlocked : bar.state ≠ "locked" := by rw [hstate]; decide
    refine ⟨?_, ?_, ?_⟩
    · simp [claim, hw, htc, hpid, hnm, hteam, hpen, hbar, hlocked]
    · simp [claim, hw, htc, hpid, hnm, hteam, hpen, hbar, hlocked,
        alookup_assocSet_self, claimBarOver]
    · have hcl2 : (claim st tnow tc pid nm lat lng tp dp).2.bars
          = assocSet st.bars pid (claimBarOver bar tc tp dp) := by
        simp [claim, hw, htc, hpid, hnm, hteam, hpen, hbar, hlocked]
      unfold specOwnedCount
      rw [hcl2]
      exact ownedLen_assocSet_preserve st.bars pid bar _ tc hbar
        (by simp [claimBarOver, hown])
  · intro bar hbar hstate hown
    have hlocked : bar.state ≠ "locked" := by rw [hstate]; decide
    constructor
    · simp [claim, hw, htc, hpid, hnm, hteam, hpen, hbar, hlocked]
    · simp [claim, hw, htc, hpid, hnm, hteam, hpen, hbar, hlocked,
        alookup_assocSet_self, claimBarOver]

/-- C3 witness: concrete runs of all three scenarios — `NAP123` claims the
fresh bar `b1` (count 0 → 1), re-claims it (count stays 1), and `PUMP456`
claims it over `NAP123` (ownership transfers). -/
theorem C3_witness :
    ((claim st0 100 "NAP123" "b1" "Bar One" 0 0 "" "").1 = Res.ok
      ∧ specOwnedCount (claim st0 100 "NAP123" "b1" "Bar One" 0 0 "" "").2 "NAP123"
          = specOwnedCount st0 "NAP123" + 1)
    ∧ ((claim stClaimed 200 "NAP123" "b1" "Bar One" 0 0 "" "").1 = Res.ok
      ∧ specOwnedCount (claim stClaimed 200 "NAP123" "b1" "Bar One" 0 0 "" "").2
          "NAP123" = specOwnedCount stClaimed "NAP123")
    ∧ (claim stClaimed 200 "PUMP456" "b1" "Bar One" 0 0 "" "").1 = Res.ok := by
  have h0 := C3_claim_ownership_contract st0 100 "NAP123" "b1" "Bar One" 0 0 "" ""
    (mkTeam "Raj's Nap Champs" "#ef4444") (by decide) (by decide) (by decide)
    (by decide) (by decide) (by decide)
  have h1 := C3_claim_ownership_contract stClaimed 200 "NAP123" "b1" "Bar One"
    0 0 "" "" ({ mkTeam "Raj's Nap Champs" "#ef4444" with score := 1 })
    (by decide) (by decide) (by decide) (by decide) (by decide) (by decide)
  have h2 := C3_claim_ownership_contract stClaimed 200 "PUMP456" "b1" "Bar One"
    0 0 "" "" (mkTeam "Raj's Pumpers & Dumpers" "#f59e0b")
    (by decide) (by decide) (by decide) (by decide) (by decide) (by decide)
  obtain ⟨ha1, _, ha3⟩ := h0.1 (by decide)
  obtain ⟨hb1, _, hb3⟩ := h1.2.1
    { name := "Bar One", lat := 0, lng := 0, state := "claimed",
      claimedBy := "NAP123", lockedBy := none,
      proof := { teamPhoto := "", drinksPhoto := "" }, attemptsFailed := 0 }
    (by decide) (by decide) (by decide)
  obtain ⟨hc1, _⟩ := h2.2.2
    { name := "Bar One", lat := 0, lng := 0, state := "claimed",
      claimedBy := "NAP123", lockedBy := none,
      proof := { teamPhoto := "", drinksPhoto := "" }, attemptsFailed := 0 }
    (by decide) (by decide) (by decide)
  exact ⟨⟨ha1, ha3⟩, ⟨hb1, hb3⟩, hc1⟩

theorem stealFail_eq (st : DB) (tnow : Nat) (tc pid : String) (bar : Bar)
    (u : Team)
    (hw : withinGameTime st.game tnow = true)
    (hbar : alookup st.bars pid = some bar)
    (hstate : bar.state = "claimed")
    (hown : bar.claimedBy ≠ tc)
    (hteam : alookup st.teams tc = some u) :
    stealAttempt st tnow tc pid false
      = (Res.ok, { st with
          bars := assocSet st.bars pid (stealFailBar bar),
          teams := assocSet st.teams tc (
            { u with penaltyUntil := addPenaltyUntil u tnow 5 }) }) := by
  simp [stealAttempt, hw, hbar, hstate, hown, hteam]

/-- C4 (amended): `failedStealAttempts` is reset to 0 by a successful steal
(and a freshly created bar starts at 0), and two consecutive failed steal
attempts against the same `claimed` bar with no intervening success lock it
for the owner it had at that time (the original owner, recorded in
`lockedBy`); HOWEVER a successful claim that transfers ownership of an
existing bar does NOT reset the counter — the reset-on-ownership-change
rule holds only for the steal path.  Only that last clause amends the
original claim. -/
theorem C4_failed_steal_counter_rules (st : DB) :
    (∀ (tnow : Nat) (tc pid : String) (bar : Bar) (u : Team),
      withinGameTime st.game tnow = true →
      alookup st.bars pid = some bar → bar.state = "claimed" →
      bar.claimedBy ≠ tc → alookup st.teams tc = some u →
      (stealAttempt st tnow tc pid true).1 = Res.ok
      ∧ (alookup (stealAttempt st tnow tc pid true).2.bars pid).map
          (fun b => (b.state, b.claimedBy, b.attemptsFailed))
          = some ("claimed", tc, 0))
    ∧ (∀ (tn1 tn2 : Nat) (tc1 tc2 pid : String) (bar : Bar) (u1 u2 : Team),
      withinGameTime st.game tn1 = true → withinGameTime st.game tn2 = true →
      alookup st.bars pid = some bar → bar.state = "claimed" →
      bar.attemptsFailed = 0 →
      bar.claimedBy ≠ tc1 → bar.claimedBy ≠ tc2 →
      alookup st.teams tc1 = some u1 → alookup st.teams tc2 = some u2 →
      (stealAttempt st tn1 tc1 pid false).1 = Res.ok
      ∧ (alookup (stealAttempt st tn1 tc1 pid false).2.bars pid).map
          (fun b => (b.state, b.claimedBy, b.attemptsFailed))
          = some ("claimed", bar.claimedBy, 1)
      ∧ (stealAttempt (stealAttempt st tn1 tc1 pid false).2 tn2 tc2 pid
          false).1 = Res.ok
      ∧ (alookup (stealAttempt (stealAttempt st tn1 tc1 pid false).2 tn2 tc2
          pid false).2.bars pid).map
          (fun b => (b.state, b.lockedBy, b.claimedBy))
          = some ("locked", some bar.claimedBy, bar.claimedBy))
    ∧ (∀ (tnow : Nat) (tc pid nm : String) (lat lng : Int) (tp dp : String)
        (bar : Bar) (u : Team),
      withinGameTime st.game tnow = true →
      tc ≠ "" → pid ≠ "" → nm ≠ "" →
      alookup st.teams tc = some u → isPenalizedT u tnow = false →
      alookup st.bars pid = some bar → bar.state = "claimed" →
      bar.claimedBy ≠ tc →
      (claim st tnow tc pid nm lat lng tp dp).1 = Res.ok
      ∧ (alookup (claim st tnow tc pid nm lat lng tp dp).2.bars pid).map
          (fun b => (b.claimedBy, b.attemptsFailed))
          = some (tc, bar.attemptsFailed)) := by
  refine ⟨?_, ?_, ?_⟩
  · intro tnow tc pid bar u hw hbar hstate hown hteam
    constructor
    · simp [stealAttempt, hw, hbar, hstate, hown, hteam]
    · simp [stealAttempt, hw, hbar, hstate, hown, hteam, alookup_assocSet_self]
  · intro tn1 tn2 tc1 tc2 pid bar u1 u2 hw1 hw2 hbar hstate haf h1 h2 ht1 ht2
    have hfb1 : stealFailBar bar = { bar with attemptsFailed := 1 } := by
      simp [stealFailBar, haf]
    have e1 := stealFail_eq st tn1 tc1 pid bar u1 hw1 hbar hstate h1 ht1
    have hbar2 : alookup (assocSet st.bars pid (stealFailBar bar)) pid
        = some ({ bar with attemptsFailed := 1 }) := by
      rw [hfb1]; exact alookup_assocSet_self _ _ _
    obtain ⟨u2b, hu2b⟩ : ∃ u, alookup (assocSet st.teams tc1 (
        { u1 with penaltyUntil := addPenaltyUntil u1 tn1 5 })) tc2 = some u := by
      by_cases hc : tc2 = tc1
      · subst hc; exact ⟨_, alookup_assocSet_self _ _ _⟩
      · rw [alookup_assocSet_ne _ _ _ _ hc]; exact ⟨u2, ht2⟩
    have e2 := stealFail_eq
      ({ st with
        bars := assocSet st.bars pid (stealFailBar bar),
        teams := assocSet st.teams tc1 (
          { u1 with penaltyUntil := addPenaltyUntil u1 tn1 5 }) })
      tn2 tc2 pid ({ bar with attemptsFailed := 1 }) u2b hw2 hbar2 hstate h2 hu2b
    refine ⟨by rw [e1], ?_, ?_, ?_⟩
    · rw [e1]
      simp only [hbar2]
      simp [hstate]
    · rw [e1]
      rw [e2]
    · rw [e1, e2]
      rw [alookup_assocSet_self]
      simp [stealFailBar]
  · intro tnow tc pid nm lat lng tp dp bar u hw htc hpid hnm hteam hpen hbar
      hstate hown
    have hlocked : bar.state ≠ "locked" := by rw [hstate]; decide
    constructor
    · simp [claim, hw, htc, hpid, hnm, hteam, hpen, hbar, hlocked]
    · simp [claim, hw, htc, hpid, hnm, hteam, hpen, hbar, hlocked,
        alookup_assocSet_self, claimBarOver]

/-- C4 witness: on `stClaimed` (bar `b1` claimed by `NAP123`,
`attemptsFailed = 0`), a successful steal by `PUMP456` resets the counter
to 0; two consecutive failed steals by `PUMP456` and `ROCK789` lock the
bar with `lockedBy = NAP123`; a take-over claim by `PUMP456` keeps the
counter at its old value. -/
theorem C4_witness :
    ((stealAttempt stClaimed 150 "PUMP456" "b1" true).1 = Res.ok
      ∧ (alookup (stealAttempt stClaimed 150 "PUMP456" "b1" true).2.bars
          "b1").map (fun b => (b.state, b.claimedBy, b.attemptsFailed))
        = some ("claimed", "PUMP456", 0))
    ∧ ((alookup (stealAttempt (stealAttempt stClaimed 150 "PUMP456" "b1"
          false).2 160 "ROCK789" "b1" false).2.bars "b1").map
          (fun b => (b.state, b.lockedBy, b.claimedBy))
        = some ("locked", some "NAP123", "NAP123"))
    ∧ (alookup (claim stClaimed 200 "PUMP456" "b1" "Bar One" 0 0 "" "").2.bars
        "b1").map (fun b => (b.claimedBy, b.attemptsFailed))
      = some ("PUMP456", 0) := by
  have h := C4_failed_steal_counter_rules stClaimed
  have barB1 : Bar :=
    { name := "Bar One", lat := 0, lng := 0, state := "claimed",
      claimedBy := "NAP123", lockedBy := none,
      proof := Proof.mk "" "", attemptsFailed := 0 }
  obtain ⟨ha1, ha2⟩ := h.1 150 "PUMP456" "b1"
    { name := "Bar One", lat := 0, lng := 0, state := "claimed",
      claimedBy := "NAP123", lockedBy := none,
      proof := Proof.mk "" "", attemptsFailed := 0 }
    ({ mkTeam "Raj's Pumpers & Dumpers" "#f59e0b" with penaltyUntil := 0 })
    (by decide) (by decide) (by decide) (by decide) (by decide)
  obtain ⟨_, _, _, hb4⟩ := h.2.1 150 160 "PUMP456" "ROCK789" "b1"
    { name := "Bar One", lat := 0, lng := 0, state := "claimed",
      claimedBy := "NAP123", lockedBy := none,
      proof := Proof.mk "" "", attemptsFailed := 0 }
    (mkTeam "Raj's Pumpers & Dumpers" "#f59e0b")
    (mkTeam "Raj on the Rocks" "#22c55e")
    (by decide) (by decide) (by decide) (by decide) (by decide) (by decide)
    (by decide) (by decide) (by decide)
  obtain ⟨_, hc2⟩ := h.2.2 200 "PUMP456" "b1" "Bar One" 0 0 "" ""
    { name := "Bar One", lat := 0, lng := 0, state := "claimed",
      claimedBy := "NAP123", lockedBy := none,
      proof := Proof.mk "" "", attemptsFailed := 0 }
    (mkTeam "Raj's Pumpers & Dumpers" "#f59e0b")
    (by decide) (by decide) (by decide) (by decide) (by decide) (by decide)
    (by decide) (by decide) (by decide)
  exact ⟨⟨ha1, ha2⟩, hb4, hc2⟩

theorem shuffle_ne_nil {α : Type} (arr : List α) (seed : String) (h : arr ≠ []) :
    shuffle arr seed ≠ [] := by
  intro hc
  apply h
  have hl := (shuffle_perm arr seed).length_eq
  rw [hc] at hl
  exact List.length_eq_zero.mp hl.symm

/-- C6 (amended): `claim`, `lock`, `drawCard`, `completeChallenge` and
`vetoChallenge` are all-or-nothing — whenever they return an error, the
state is exactly the input state.  `stealAttempt` is all-or-nothing except
in one case: a failed attempt resolves the acting team only after mutating
the bar, so when the team code is invalid the call errors with
`Invalid team.` having already incremented the bar's `failedStealAttempts`
(and possibly locked it).  Only that exception amends the original claim. -/
theorem C6_validation_before_write (st : DB) (tnow : Nat) :
    (∀ (tc pid nm : String) (lat lng : Int) (tp dp : String) (e : String),
      (claim st tnow tc pid nm lat lng tp dp).1 = Res.err e →
      (claim st tnow tc pid nm lat lng tp dp).2 = st)
    ∧ (∀ (tc pid : String) (e : String),
      (lock st tnow tc pid).1 = Res.err e → (lock st tnow tc pid).2 = st)
    ∧ (∀ (tc : String) (e : String),
      (drawCard st tnow tc).1 = Res.err e → (drawCard st tnow tc).2 = st)
    ∧ (∀ (tc : String) (e : String),
      (completeChallenge st tc).1 = Res.err e → (completeChallenge st tc).2 = st)
    ∧ (∀ (tc : String) (e : String),
      (vetoChallenge st tnow tc).1 = Res.err e → (vetoChallenge st tnow tc).2 = st)
    ∧ (∀ (tc pid : String) (s : Bool) (e : String),
      (stealAttempt st tnow tc pid s).1 = Res.err e →
      ((stealAttempt st tnow tc pid s).2 = st
        ∨ (e = "Invalid team." ∧ s = false ∧ alookup st.teams tc = none
           ∧ (stealAttempt st tnow tc pid s).2.teams = st.teams
           ∧ ∃ bar, alookup st.bars pid = some bar
             ∧ (stealAttempt st tnow tc pid s).2.bars
               = assocSet st.bars pid (stealFailBar bar)))) := by
  refine ⟨?_, ?_, ?_, ?_, ?_, ?_⟩
  · intro tc pid nm lat lng tp dp e h
    by_cases hw : withinGameTime st.game tnow = false
    · simp [claim, hw]
    · by_cases hf : tc = "" ∨ pid = "" ∨ nm = ""
      · simp [claim, hw, hf]
      · cases hteam : alookup st.teams tc with
        | none => simp [claim, hw, hf, hteam]
        | some team =>
          by_cases hpen : isPenalizedT team tnow
          · simp [claim, hw, hf, hteam, hpen]
          · cases hbar : alookup st.bars pid with
            | none => simp [claim, hw, hf, hteam, hpen, hbar] at h
            | some bar =>
              by_cases hlk : bar.state = "locked"
              · simp [claim, hw, hf, hteam, hpen, hbar, hlk]
              · simp [claim, hw, hf, hteam, hpen, hbar, hlk] at h
  · intro tc pid e h
    by_cases hw : withinGameTime st.game tnow = false
    · simp [lock, hw]
    · cases hbar : alookup st.bars pid with
      | none => simp [lock, hw, hbar]
      | some bar =>
        by_cases hok : bar.state = "claimed" ∧ bar.claimedBy = tc
        · simp [lock, hw, hbar, hok] at h
        · simp [lock, hw, hbar, hok]
  · intro tc e h
    by_cases hw : withinGameTime st.game tnow = false
    · simp [drawCard, hw]
    · by_cases hmd : st.game.masterDeck = []
      · simp [drawCard, hw, hmd]
      · cases hteam : alookup st.teams tc with
        | none => simp [drawCard, hw, hmd, hteam]
        | some team =>
          by_cases hpen : isPenalizedT team tnow
          · simp [drawCard, hw, hmd, hteam, hpen]
          · by_cases hact : hasActiveChallenge team
            · simp [drawCard, hw, hmd, hteam, hpen, hact]
            · by_cases hdeck : team.deck = []
              · by_cases hseed : team.deckSeed = ""
                · cases hc : shuffle st.game.masterDeck
                      (tc ++ ":" ++ toString tnow) with
                  | nil => exact absurd hc (shuffle_ne_nil _ _ hmd)
                  | cons c cs =>
                    simp [drawCard, hw, hmd, hteam, hpen, hact, hdeck, hseed,
                      hc, List.find?] at h
                · cases hc : shuffle st.game.masterDeck team.deckSeed with
                  | nil => exact absurd hc (shuffle_ne_nil _ _ hmd)
                  | cons c cs =>
                    simp [drawCard, hw, hmd, hteam, hpen, hact, hdeck, hseed,
                      hc, List.find?] at h
              · cases hfind : team.deck.find?
                    (fun c => !decide (c.id ∈ team.drawn)) with
                | none =>
                  simp [drawCard, hw, hmd, hteam, hpen, hact, hdeck, hfind,
                    assocSet_self _ _ _ hteam]
                | some next =>
                  simp [drawCard, hw, hmd, hteam, hpen, hact, hdeck, hfind] at h
  · intro tc e h
    cases hteam : alookup st.teams tc with
    | none => simp [completeChallenge, hteam]
    | some team =>
      cases hact : team.activeChallenge with
      | none => simp [completeChallenge, hteam, hact]
      | some act =>
        by_cases hs : act.status = "active"
        · simp [completeChallenge, hteam, hact, hs] at h
        · simp [completeChallenge, hteam, hact, hs]
  · intro tc e h
    cases hteam : alookup st.teams tc with
    | none => simp [vetoChallenge, hteam]
    | some team =>
      cases hact : team.activeChallenge with
      | none => simp [vetoChallenge, hteam, hact]
      | some act =>
        by_cases hs : act.status = "active"
        · by_cases he : tnow - act.startedAt < 720000
          · simp [vetoChallenge, hteam, hact, hs, he]
          · simp [vetoChallenge, hteam, hact, hs, he] at h
        · simp [vetoChallenge, hteam, hact, hs]
  · intro tc pid s e h
    by_cases hw : withinGameTime st.game tnow = false
    · left; simp [stealAttempt, hw]
    · cases hbar : alookup st.bars pid with
      | none => left; simp [stealAttempt, hw, hbar]
      | some bar =>
        by_cases hst : bar.state = "claimed"
        · by_cases hown : bar.claimedBy = tc
          · left; simp [stealAttempt, hw, hbar, hst, hown]
          · cases s with
            | true =>
              cases hteam : alookup st.teams tc with
              | none => left; simp [stealAttempt, hw, hbar, hst, hown, hteam]
              | some u => simp [stealAttempt, hw, hbar, hst, hown, hteam] at h
            | false =>
              cases hteam : alookup st.teams tc with
              | none =>
                right
                have he : e = "Invalid team." := by
                  simp [stealAttempt, hw, hbar, hst, hown, hteam] at h
                  exact h.symm
                refine ⟨he, rfl, rfl, ?_, bar, rfl, ?_⟩
                · simp [stealAttempt, hw, hbar, hst, hown, hteam]
                · simp [stealAttempt, hw, hbar, hst, hown, hteam]
              | some u => simp [stealAttempt, hw, hbar, hst, hown, hteam] at h
        · left; simp [stealAttempt, hw, hbar, hst]

/-- C6 witness: on `stClaimed`, an erroring lock leaves the state intact,
and the failed steal with the invalid team `NOPE` lands in the documented
exception: the error has already bumped `failedStealAttempts` on the bar
while the teams are untouched. -/
theorem C6_witness :
    (lock stClaimed 150 "PUMP456" "b1").2 = stClaimed
    ∧ ((stealAttempt stClaimed 200 "NOPE" "b1" false).2 = stClaimed
        ∨ ("Invalid team." = "Invalid team." ∧ false = false
           ∧ alookup stClaimed.teams "NOPE" = none
           ∧ (stealAttempt stClaimed 200 "NOPE" "b1" false).2.teams
             = stClaimed.teams
           ∧ ∃ bar, alookup stClaimed.bars "b1" = some bar
             ∧ (stealAttempt stClaimed 200 "NOPE" "b1" false).2.bars
               = assocSet stClaimed.bars "b1" (stealFailBar bar))) :=
  ⟨(C6_validation_before_write stClaimed 150).2.1 "PUMP456" "b1"
      "You must claim the bar first." (by decide),
   (C6_validation_before_write stClaimed 200).2.2.2.2.2 "NOPE" "b1" false
      "Invalid team." (by decide)⟩

/-- The per-call observation recorded by `drawTrace`: the handler's answer
and the caller's team record afterwards. -/
def drawTrace (st : DB) (tc : String) : List Nat → List (Res × Option Team)
  | [] => []
  | tm :: rest =>
    ((drawCard st tm tc).1, alookup (drawCard st tm tc).2.teams tc)
      :: drawTrace (drawCard st tm tc).2 tc rest

theorem drawCard_game (st : DB) (tm : Nat) (tc : String) :
    (drawCard st tm tc).2.game = st.game := by
  unfold drawCard
  repeat' split
  all_goals try rfl
  all_goals (dsimp only; split <;> rfl)

theorem drawCard_team_deck (st : DB) (tm : Nat) (tc : String) (t : Team)
    (hteam : alookup st.teams tc = some t) (hdeck : t.deck ≠ []) :
    ∃ t2, alookup (drawCard st tm tc).2.teams tc = some t2 ∧ t2.deck = t.deck := by
  by_cases hw : withinGameTime st.game tm = false
  · exact ⟨t, by simp [drawCard, hw, hteam], rfl⟩
  · by_cases hmd : st.game.masterDeck = []
    · exact ⟨t, by simp [drawCard, hw, hmd, hteam], rfl⟩
    · by_cases hpen : isPenalizedT t tm
      · exact ⟨t, by simp [drawCard, hw, hmd, hteam, hpen], rfl⟩
      · by_cases hact : hasActiveChallenge t
        · exact ⟨t, by simp [drawCard, hw, hmd, hteam, hpen, hact], rfl⟩
        · cases hfind : t.deck.find? (fun c => !decide (c.id ∈ t.drawn)) with
          | none =>
            refine ⟨t, ?_, rfl⟩
            simp [drawCard, hw, hmd, hteam, hpen, hact, hdeck, hfind,
              alookup_assocSet_self]
          | some next =>
            refine ⟨{ t with activeChallenge := some {
              cardId := next.id, text := next.text, type := next.type,
              startedAt := tm, status := "active" } }, ?_, rfl⟩
            simp [drawCard, hw, hmd, hteam, hpen, hact, hdeck, hfind,
              alookup_assocSet_self]

theorem drawCard_uploadDeck_comm (st : DB) (d : List Card) (tc : String)
    (tm : Nat) (t : Team)
    (hteam : alookup st.teams tc = some t) (hdeck : t.deck ≠ [])
    (hmd : st.game.masterDeck ≠ []) (hd : d ≠ []) :
    drawCard (uploadDeck st d) tm tc
      = ((drawCard st tm tc).1, uploadDeck (drawCard st tm tc).2 d) := by
  have hwg : ∀ g : Game, withinGameTime { g with masterDeck := d } tm
      = withinGameTime g tm := fun _ => rfl
  by_cases hw : withinGameTime st.game tm = false
  · simp [drawCard, uploadDeck, hwg, hw]
  · by_cases hpen : isPenalizedT t tm
    · simp [drawCard, uploadDeck, hwg, hw, hmd, hd, hteam, hpen]
    · by_cases hact : hasActiveChallenge t
      · simp [drawCard, uploadDeck, hwg, hw, hmd, hd, hteam, hpen, hact]
      · cases hfind : t.deck.find? (fun c => !decide (c.id ∈ t.drawn)) with
        | none =>
          simp [drawCard, uploadDeck, hwg, hw, hmd, hd, hteam, hpen, hact,
            hdeck, hfind]
        | some next =>
          simp [drawCard, uploadDeck, hwg, hw, hmd, hd, hteam, hpen, hact,
            hdeck, hfind]

theorem drawTrace_uploadDeck (d : List Card) (tc : String) (hd : d ≠ []) :
    ∀ (times : List Nat) (st : DB) (t : Team),
      alookup st.teams tc = some t → t.deck ≠ [] →
      st.game.masterDeck ≠ [] →
      drawTrace (uploadDeck st d) tc times = drawTrace st tc times
  | [], _, _, _, _, _ => rfl
  | tm :: rest, st, t, hteam, hdeck, hmd => by
    have hcomm := drawCard_uploadDeck_comm st d tc tm t hteam hdeck hmd hd
    obtain ⟨t2, ht2, ht2deck⟩ := drawCard_team_deck st tm tc t hteam hdeck
    have hdeck2 : t2.deck ≠ [] := by rw [ht2deck]; exact hdeck
    have hmd2 : (drawCard st tm tc).2.game.masterDeck ≠ [] := by
      rw [drawCard_game]; exact hmd
    have ih := drawTrace_uploadDeck d tc hd rest (drawCard st tm tc).2 t2
      ht2 hdeck2 hmd2
    unfold drawTrace
    rw [hcomm]
    exact congrArg₂ _ rfl ih

/-- C10 (confirmed): once a team's personal deck has been initialized (its
`deck` field is non-empty, which its first successful `drawCard` guarantees
because the master deck was non-empty and `shuffle` permutes it), replacing
the master deck via the admin upload touches no team and no bar, and the
team's whole future draw behaviour — every answer and the team record
(deck, drawn set, active challenge) after every subsequent `drawCard` — is
identical with the old and the new master deck. -/
theorem C10_uploaded_deck_is_frozen_snapshot (st : DB) (d : List Card)
    (tc : String) (t : Team)
    (hteam : alookup st.teams tc = some t) (hdeck : t.deck ≠ [])
    (hmd : st.game.masterDeck ≠ []) (hd : d ≠ []) :
    (uploadDeck st d).teams = st.teams
    ∧ (uploadDeck st d).bars = st.bars
    ∧ ∀ times : List Nat,
        drawTrace (uploadDeck st d) tc times = drawTrace st tc times :=
  ⟨rfl, rfl, fun times => drawTrace_uploadDeck d tc hd times st t hteam hdeck hmd⟩

/-- A one-card master deck loaded, team `NAP123` yet to draw. -/
def stDraw0 : DB :=
  { game := { g0 with masterDeck := [⟨"card_1", "challenge", "X"⟩] },
    teams := [("NAP123", mkTeam "Raj's Nap Champs" "#ef4444")],
    bars := [] }

/-- `stDraw0` after `NAP123` drew its first card at t=500 (deck snapshot
taken, challenge `card_1` active). -/
def stDrawn : DB := (drawCard stDraw0 500 "NAP123").2

/-- C10 witness: the state `stDrawn` (team `NAP123` after its first draw
from the one-card master deck) keeps its team list and its whole future
draw behaviour when the master deck is replaced by two fresh cards. -/
theorem C10_witness :
    (uploadDeck stDrawn [⟨"card_1", "challenge", "Y"⟩,
        ⟨"card_2", "curse", "Z"⟩]).teams = stDrawn.teams
    ∧ drawTrace (uploadDeck stDrawn [⟨"card_1", "challenge", "Y"⟩,
        ⟨"card_2", "curse", "Z"⟩]) "NAP123" [600, 700]
      = drawTrace stDrawn "NAP123" [600, 700] := by
  have h := C10_uploaded_deck_is_frozen_snapshot stDrawn
    [⟨"card_1", "challenge", "Y"⟩, ⟨"card_2", "curse", "Z"⟩] "NAP123"
    ({ mkTeam "Raj's Nap Champs" "#ef4444" with
        deckSeed := "NAP123:500",
        deck := [⟨"card_1", "challenge", "X"⟩],
        drawn := [],
        activeChallenge := some ⟨"card_1", "X", "challenge", 500, "active"⟩ })
    (by decide) (by decide) (by decide) (by decide)
  exact ⟨h.1, h.2.2 [600, 700]⟩

theorem lock_scoreOf (st : DB) (tnow : Nat) (tc2 pid tc : String) :
    scoreOf (lock st tnow tc2 pid).2 tc = scoreOf st tc := by
  unfold lock
  repeat' split
  all_goals rfl

theorem complete_scoreOf (st : DB) (tc2 tc : String) :
    scoreOf (completeChallenge st tc2).2 tc = scoreOf st tc := by
  cases hteam : alookup st.teams tc2 with
  | none => simp [completeChallenge, hteam]
  | some team =>
    cases hact : team.activeChallenge with
    | none => simp [completeChallenge, hteam, hact]
    | some act =>
      by_cases hs : act.status = "active"
      · by_cases hc : tc2 = tc
        · subst hc
          simp [completeChallenge, hteam, hact, hs, scoreOf,
            alookup_assocSet_self]
        · have hc2 : tc ≠ tc2 := fun h => hc h.symm
          simp [completeChallenge, hteam, hact, hs, scoreOf,
            alookup_assocSet_ne _ _ _ _ hc2]
      · simp [completeChallenge, hteam, hact, hs]

theorem veto_scoreOf (st : DB) (tnow : Nat) (tc2 tc : String) :
    scoreOf (vetoChallenge st tnow tc2).2 tc = scoreOf st tc := by
  cases hteam : alookup st.teams tc2 with
  | none => simp [vetoChallenge, hteam]
  | some team =>
    cases hact : team.activeChallenge with
    | none => simp [vetoChallenge, hteam, hact]
    | some act =>
      by_cases hs : act.status = "active"
      · by_cases he : tnow - act.startedAt < 720000
        · simp [vetoChallenge, hteam, hact, hs, he]
        · by_cases hc : tc2 = tc
          · subst hc
            simp [vetoChallenge, hteam, hact, hs, he, scoreOf,
              alookup_assocSet_self]
          · have hc2 : tc ≠ tc2 := fun h => hc h.symm
            simp [vetoChallenge, hteam, hact, hs, he, scoreOf,
              alookup_assocSet_ne _ _ _ _ hc2]
      · simp [vetoChallenge, hteam, hact, hs]

theorem assocSet_assocSet {α : Type} (m : List (String × α)) (k : String)
    (u1 u2 : α) : assocSet (assocSet m k u1) k u2 = assocSet m k u2 := by
  induction m with
  | nil => simp [assocSet]
  | cons p rest ih =>
    obtain ⟨k1, v1⟩ := p
    by_cases hp : k1 = k
    · subst hp; simp [assocSet]
    · simp [assocSet, hp, ih]

theorem alookup_map_score_assocSet (m : List (String × Team)) (tc2 tc : String)
    (u t0 : Team) (hm : alookup m tc2 = some t0) (hu : u.score = t0.score) :
    (alookup (assocSet m tc2 u) tc).map Team.score
      = (alookup m tc).map Team.score := by
  by_cases hc : tc = tc2
  · subst hc; rw [alookup_assocSet_self, hm]; simp [hu]
  · rw [alookup_assocSet_ne _ _ _ _ hc]

theorem draw_scoreOf (st : DB) (tnow : Nat) (tc2 tc : String) :
    scoreOf (drawCard st tnow tc2).2 tc = scoreOf st tc := by
  by_cases hw : withinGameTime st.game tnow = false
  · simp [drawCard, hw]
  · by_cases hmd : st.game.masterDeck = []
    · simp [drawCard, hw, hmd]
    · cases hteam : alookup st.teams tc2 with
      | none => simp [drawCard, hw, hmd, hteam]
      | some team =>
        by_cases hpen : isPenalizedT team tnow
        · simp [drawCard, hw, hmd, hteam, hpen]
        · by_cases hact : hasActiveChallenge team
          · simp [drawCard, hw, hmd, hteam, hpen, hact]
          · by_cases hdeck : team.deck = []
            · by_cases hseed : team.deckSeed = ""
              · cases hsh : shuffle st.game.masterDeck
                    (tc2 ++ ":" ++ toString tnow) with
                | nil => exact absurd hsh (shuffle_ne_nil _ _ hmd)
                | cons c cs =>
                  have e : (drawCard st tnow tc2).2.teams
                      = assocSet st.teams tc2 (
                        { team with
                          deckSeed := tc2 ++ ":" ++ toString tnow,
                          deck := c :: cs, drawn := [],
                          activeChallenge := some {
                            cardId := c.id, text := c.text, type := c.type,
                            startedAt := tnow, status := "active" } }) := by
                    simp [drawCard, hw, hmd, hteam, hpen, hact, hdeck, hseed,
                      hsh, List.find?, assocSet_assocSet]
                  unfold scoreOf
                  rw [e]
                  exact alookup_map_score_assocSet _ _ _ _ team hteam rfl
              · cases hsh : shuffle st.game.masterDeck team.deckSeed with
                | nil => exact absurd hsh (shuffle_ne_nil _ _ hmd)
                | cons c cs =>
                  have e : (drawCard st tnow tc2).2.teams
                      = assocSet st.teams tc2 (
                        { team with
                          deck := c :: cs, drawn := [],
                          activeChallenge := some {
                            cardId := c.id, text := c.text, type := c.type,
                            startedAt := tnow, status := "active" } }) := by
                    simp [drawCard, hw, hmd, hteam, hpen, hact, hdeck, hseed,
                      hsh, List.find?, assocSet_assocSet]
                  unfold scoreOf
                  rw [e]
                  exact alookup_map_score_assocSet _ _ _ _ team hteam rfl
            · cases hfind : team.deck.find?
                  (fun c => !decide (c.id ∈ team.drawn)) with
              | none =>
                have e : (drawCard st tnow tc2).2.teams
                    = assocSet st.teams tc2 team := by
                  simp [drawCard, hw, hmd, hteam, hpen, hact, hdeck, hfind]
                unfold scoreOf
                rw [e]
                exact alookup_map_score_assocSet _ _ _ _ team hteam rfl
              | some next =>
                have e : (drawCard st tnow tc2).2.teams
                    = assocSet st.teams tc2 (
                      { team with activeChallenge := some {
                        cardId := next.id, text := next.text,
                        type := next.type, startedAt := tnow,
                        status := "active" } }) := by
                  simp [drawCard, hw, hmd, hteam, hpen, hact, hdeck, hfind,
                    assocSet_assocSet]
                unfold scoreOf
                rw [e]
                exact alookup_map_score_assocSet _ _ _ _ team hteam rfl

theorem claim_scoreOf (st : DB) (tnow : Nat) (tc2 pid nm : String)
    (lat lng : Int) (tp dp tc : String) :
    scoreOf (claim st tnow tc2 pid nm lat lng tp dp).2 tc
      = Option.map (fun n => n +
          (if tc2 = tc ∧ (claim st tnow tc2 pid nm lat lng tp dp).1 = Res.ok
           then 1 else 0)) (scoreOf st tc) := by
  by_cases hw : withinGameTime st.game tnow = false
  · simp [claim, hw]
  · by_cases hf : tc2 = "" ∨ pid = "" ∨ nm = ""
    · simp [claim, hw, hf]
    · cases hteam : alookup st.teams tc2 with
      | none => simp [claim, hw, hf, hteam]
      | some team =>
        by_cases hpen : isPenalizedT team tnow
        · simp [claim, hw, hf, hteam, hpen]
        · cases hbar : alookup st.bars pid with
          | none =>
            by_cases hc : tc2 = tc
            · subst hc
              simp [claim, hw, hf, hteam, hpen, hbar, scoreOf,
                alookup_assocSet_self]
            · have hc2 : tc ≠ tc2 := fun h => hc h.symm
              simp [claim, hw, hf, hteam, hpen, hbar, hc, scoreOf,
                alookup_assocSet_ne _ _ _ _ hc2, Function.comp]
              rfl
          | some bar =>
            by_cases hlk : bar.state = "locked"
            · simp [claim, hw, hf, hteam, hpen, hbar, hlk]
            · by_cases hc : tc2 = tc
              · subst hc
                simp [claim, hw, hf, hteam, hpen, hbar, hlk, scoreOf,
                  alookup_assocSet_self]
              · have hc2 : tc ≠ tc2 := fun h => hc h.symm
                simp [claim, hw, hf, hteam, hpen, hbar, hlk, hc, scoreOf,
                  alookup_assocSet_ne _ _ _ _ hc2, Function.comp]
                rfl

theorem steal_scoreOf (st : DB) (tnow : Nat) (tc2 pid : String) (s : Bool)
    (tc : String) :
    scoreOf (stealAttempt st tnow tc2 pid s).2 tc
      = Option.map (fun n => n +
          (if tc2 = tc ∧ s = true ∧ (stealAttempt st tnow tc2 pid s).1 = Res.ok
           then 1 else 0)) (scoreOf st tc) := by
  by_cases hw : withinGameTime st.game tnow = false
  · simp [stealAttempt, hw]
  · cases hbar : alookup st.bars pid with
    | none => simp [stealAttempt, hw, hbar]
    | some bar =>
      by_cases hst : bar.state = "claimed"
      · by_cases hown : bar.claimedBy = tc2
        · simp [stealAttempt, hw, hbar, hst, hown]
        · cases s with
          | true =>
            cases hteam : alookup st.teams tc2 with
            | none => simp [stealAttempt, hw, hbar, hst, hown, hteam]
            | some u =>
              by_cases hc : tc2 = tc
              · subst hc
                simp [stealAttempt, hw, hbar, hst, hown, hteam, scoreOf,
                  alookup_assocSet_self]
              · have hc2 : tc ≠ tc2 := fun h => hc h.symm
                simp [stealAttempt, hw, hbar, hst, hown, hteam, hc, scoreOf,
                  alookup_assocSet_ne _ _ _ _ hc2, Function.comp]
                rfl
          | false =>
            cases hteam : alookup st.teams tc2 with
            | none =>
              simp [stealAttempt, hw, hbar, hst, hown, hteam]
              rfl
            | some u =>
              by_cases hc : tc2 = tc
              · subst hc
                simp [stealAttempt, hw, hbar, hst, hown, hteam, scoreOf,
                  alookup_assocSet_self]
              · have hc2 : tc ≠ tc2 := fun h => hc h.symm
                simp [stealAttempt, hw, hbar, hst, hown, hteam, scoreOf,
                  alookup_assocSet_ne _ _ _ _ hc2, Function.comp]
                rfl
      · simp [stealAttempt, hw, hbar, hst]

theorem applyOp_scoreOf (st : DB) (op : Op) (tc : String) :
    scoreOf (applyOp st op).2 tc
      = Option.map (fun n => n + scoreDelta tc st op) (scoreOf st tc) := by
  cases op with
  | claimOp tc2 pid nm lat lng tp dp tnow =>
    simpa [applyOp, scoreDelta] using claim_scoreOf st tnow tc2 pid nm lat lng tp dp tc
  | lockOp tc2 pid tnow =>
    simp [applyOp, scoreDelta, lock_scoreOf]
  | stealOp tc2 pid s tnow =>
    simpa [applyOp, scoreDelta] using steal_scoreOf st tnow tc2 pid s tc
  | drawOp tc2 tnow =>
    simp [applyOp, scoreDelta, draw_scoreOf]
  | completeOp tc2 =>
    simp [applyOp, scoreDelta, complete_scoreOf]
  | vetoOp tc2 tnow =>
    simp [applyOp, scoreDelta, veto_scoreOf]

/-- C1 (amended): the broadcast score is a stored counter, not a value
derived from ownership: for every team `t` and every sequence of claim,
stealAttempt, lock, drawCard, completeChallenge and vetoChallenge requests,
the score reported for `t` in the broadcast state equals `t`'s score before
the sequence plus the number of successful claims by `t` plus the number of
successful steals by `t` in the sequence.  Since a re-claim of an
already-owned bar is a successful claim, the score can exceed the number of
owned bars, and no `scoreAdjustment` exists in the state. -/
theorem C1_score_is_stored_success_counter (tc : String) :
    ∀ (ops : List Op) (st : DB),
      scoreOf (runOps st ops) tc
        = Option.map (fun n => n + succScore tc st ops) (scoreOf st tc)
  | [], st => by
    cases h : scoreOf st tc <;> simp [runOps, succScore, h]
  | op :: rest, st => by
    have ih := C1_score_is_stored_success_counter tc rest (applyOp st op).2
    have h1 := applyOp_scoreOf st op tc
    unfold runOps succScore
    rw [ih, h1, Option.map_map]
    cases h : scoreOf st tc with
    | none => rfl
    | some n => simp [Function.comp, Nat.add_assoc]

end BFC
